import Mathlib

/-!
Verification of the per-guild playback state machine of a Discord voice bot.

The definitions below are a shallow embedding of the Go source:
  - `VoiceInstance`, `Join`, `Leave`, `AddToQueue`/queue handling, `PlayAudio`
    from `audio/voice.go` (the current revision, the one the spec cites);
  - `playNextInQueuePass` / `drainLoop` from `playNextInQueue` in `main.go`;
  - `BotSys` is an interleaving layer for the goroutine-level behaviour:
    `cmdPlay` is the tail of the `play` command handler, `runDrain` runs one
    spawned `playNextInQueue` invocation, `sessionEnd` is the streaming
    goroutine's deferred `IsPlaying = false` on exit;
  - `streamTick` is one iteration of the frame-send loop inside `PlayAudio`
    (the `select` at the bottom of `PlayAudio`, which has a single
    `<-ticker.C` case and never reads `StopChan`).
External collaborators (Discord transport, the YouTube client) enter as
explicit environments (`JoinEnv`, `Resolver`).
-/

/-- A live voice connection handle; `Ready` mirrors `discordgo.VoiceConnection.Ready`. -/
structure ConnHandle where
  Ready : Bool
deriving DecidableEq

/-- Mirror of the `VoiceInstance` struct in `audio/voice.go`. -/
structure VoiceInstance where
  GuildID : String
  ChannelID : String
  Connection : Option ConnHandle
  IsPlaying : Bool
  Repeat : Bool
  Autoplay : Bool
  CurrentURL : String
  Queue : List String
deriving DecidableEq

/-- Substring occurrence on character lists, mirroring Go `strings.Contains`. -/
def hasSubList (sub : List Char) : List Char → Bool
  | [] => sub.isEmpty
  | c :: rest => sub.isPrefixOf (c :: rest) || hasSubList sub rest

/-- Go `strings.Contains(s, sub)`. -/
def stringsContains (s sub : String) : Bool :=
  hasSubList sub.data s.data

def ytCom : String := "youtube.com"

def ytBe : String := "youtu.be"

def spotifyCom : String := "spotify.com"

/-- The content-resolution collaborator: the `youtubeClient` surface used by
`main.go` (`GetVideoID`, `DownloadAudio`, and the `GetRelatedVideo` capability
from `audio/youtube`, which `playNextInQueue` never calls), plus whether the
Spotify client initialised. `none` models a Go error return. -/
structure Resolver where
  GetVideoID : String → Option String
  DownloadAudio : String → Option String
  GetRelatedVideo : String → Option String
  spotifyAvailable : Bool

/-- Result of one `playNextInQueue` invocation (without running the recursion
spawned by `go playNextInQueue`): the updated guild state, whether a recursive
invocation was spawned (`again`), which locators were popped (`attempted`),
passed to `PlayAudio` (`played`), or abandoned on a resolution/classification
failure (`failed`). -/
structure PassResult where
  next : VoiceInstance
  again : Bool
  attempted : List String
  played : List String
  failed : List String
deriving DecidableEq

/-- One invocation of `playNextInQueue` (`main.go` lines 561-687), with
`PlayAudio` abstracted to the event of being invoked.  Follows the source:
pop via `GetNextFromQueue` (also setting `CurrentURL`), set `IsPlaying`,
classify the URL, resolve via `GetVideoID`/`DownloadAudio` (each failure sets
`IsPlaying = false` and returns), play, then the `Repeat` re-append, the
`continuePlay` computation, and the continuation decision. -/
def playNextInQueuePass (r : Resolver) (vi : VoiceInstance) : PassResult :=
  match vi.Queue with
  | [] => ⟨{vi with IsPlaying := false}, false, [], [], []⟩
  | url :: rest =>
    let vi1 : VoiceInstance := {vi with Queue := rest, CurrentURL := url, IsPlaying := true}
    if stringsContains url ytCom || stringsContains url ytBe then
      match r.GetVideoID url with
      | none => ⟨{vi1 with IsPlaying := false}, false, [url], [], [url]⟩
      | some videoID =>
        match r.DownloadAudio videoID with
        | none => ⟨{vi1 with IsPlaying := false}, false, [url], [], [url]⟩
        | some _audioFile =>
          let vi2 : VoiceInstance :=
            if vi1.Repeat then {vi1 with Queue := vi1.Queue ++ [vi1.CurrentURL]} else vi1
          let continuePlay : Bool := !vi2.Queue.isEmpty || vi2.Autoplay
          if continuePlay then
            if vi2.Queue.isEmpty && vi2.Autoplay then
              ⟨{vi2 with Queue := vi2.Queue ++ [vi2.CurrentURL]}, true, [url], [url], []⟩
            else
              ⟨{vi2 with IsPlaying := false}, false, [url], [url], []⟩
          else
            ⟨{vi2 with IsPlaying := false}, false, [url], [url], []⟩
    else if stringsContains url spotifyCom then
      if r.spotifyAvailable then
        ⟨{vi1 with IsPlaying := false}, false, [url], [], [url]⟩
      else
        ⟨{vi1 with IsPlaying := false}, false, [url], [], [url]⟩
    else
      ⟨{vi1 with IsPlaying := false}, false, [url], [], [url]⟩

/-- Cumulative outcome of running the drain loop to quiescence. -/
structure DrainResult where
  final : VoiceInstance
  attempted : List String
  played : List String
deriving DecidableEq

/-- The drain loop: keep running `playNextInQueue` invocations as long as each
invocation spawns the next one (`go playNextInQueue` in the autoplay branch);
fuel bounds the number of invocations. -/
def drainLoop (r : Resolver) : Nat → VoiceInstance → DrainResult
  | 0, vi => ⟨vi, [], []⟩
  | fuel+1, vi =>
    let p := playNextInQueuePass r vi
    if p.again then
      let d := drainLoop r fuel p.next
      ⟨d.final, p.attempted ++ d.attempted, p.played ++ d.played⟩
    else
      ⟨p.next, p.attempted, p.played⟩

inductive JoinError where
  | joinFailed
  | readyTimeout
deriving DecidableEq

/-- Transport behaviour for one `Join` call: whether `ChannelVoiceJoin`
succeeds, and whether the connection reports `Ready` within the 5s window. -/
structure JoinEnv where
  connectOk : Bool
  readyInTime : Bool

structure JoinResult where
  next : VoiceInstance
  err : Option JoinError
  attempts : Nat
deriving DecidableEq

/-- `VoiceInstance.Join` (`audio/voice.go` lines 92-154).  `attempts` counts
connection-establishment sequences (`ChannelVoiceJoin` calls).  On the ready
timeout the half-open connection is disconnected and both `Connection` and
`ChannelID` are cleared before the error returns. -/
def Join (env : JoinEnv) (channelID : String) (vi : VoiceInstance) : JoinResult :=
  if vi.Connection.isSome && vi.ChannelID == channelID then
    ⟨vi, none, 0⟩
  else
    let vi1 : VoiceInstance := if vi.Connection.isSome then {vi with Connection := none} else vi
    if env.connectOk then
      if env.readyInTime then
        ⟨{vi1 with Connection := some ⟨true⟩, ChannelID := channelID}, none, 1⟩
      else
        ⟨{vi1 with Connection := none, ChannelID := ""}, some JoinError.readyTimeout, 1⟩
    else
      ⟨vi1, some JoinError.joinFailed, 1⟩

structure LeaveResult where
  next : VoiceInstance
  err : Option Unit
  stopSignalled : Bool
deriving DecidableEq

/-- `VoiceInstance.Leave` (`audio/voice.go` lines 157-215): no-op returning
`nil` when not connected; otherwise it attempts the stop signal, disconnects
(the disconnect error is logged, never returned), then unconditionally clears
`Connection`, `ChannelID`, `IsPlaying`, `CurrentURL` and the queue, and
returns `nil`.  `disconnectFails` models `Connection.Disconnect()` failing. -/
def Leave (disconnectFails : Bool) (vi : VoiceInstance) : LeaveResult :=
  match vi.Connection with
  | none => ⟨vi, none, false⟩
  | some _ =>
    ⟨{ vi with
        Connection := none
        ChannelID := ""
        IsPlaying := false
        CurrentURL := ""
        Queue := [] }, none, true⟩

inductive PlayError where
  | notConnected
deriving DecidableEq

structure PlayAudioResult where
  next : VoiceInstance
  err : Option PlayError
  spawned : Bool
  framesSentAtReturn : Nat
deriving DecidableEq

/-- `VoiceInstance.PlayAudio` (`audio/voice.go` lines 240-349) up to its
return: error only when `Connection` is nil; otherwise it sets
`IsPlaying = true`, spawns the streaming goroutine, and returns `nil` before
any frame is sent. -/
def PlayAudio (vi : VoiceInstance) : PlayAudioResult :=
  match vi.Connection with
  | none => ⟨vi, some PlayError.notConnected, false, 0⟩
  | some _ => ⟨{vi with IsPlaying := true}, none, true, 0⟩

/-- The deferred handler the streaming goroutine runs when it exits. -/
def streamGoroutineExit (vi : VoiceInstance) : VoiceInstance :=
  {vi with IsPlaying := false}

/-- Goroutine-level system state for one guild: the guild state, the number of
spawned-but-not-yet-run `playNextInQueue` invocations, and the number of
streaming goroutines currently live (spawned by `PlayAudio`, removed only when
their frame loop exits). -/
structure BotSys where
  vi : VoiceInstance
  pending : Nat
  streaming : Nat
deriving DecidableEq

/-- Tail of the `play` command handler in `main.go`: `AddToQueue(url)`, then
`go playNextInQueue` only when `IsPlaying` is false. -/
def cmdPlay (url : String) (s : BotSys) : BotSys :=
  let vi1 : VoiceInstance := {s.vi with Queue := s.vi.Queue ++ [url]}
  if vi1.IsPlaying then {s with vi := vi1}
  else {vi := vi1, pending := s.pending + 1, streaming := s.streaming}

/-- Run one pending `playNextInQueue` invocation.  `PlayAudio` returns as soon
as it has spawned its streaming goroutine, so the invocation continues into
the repeat/autoplay continuation logic while that goroutine is still live:
`streaming` grows by the number of `PlayAudio` calls, and a spawned recursive
invocation adds to `pending`. -/
def runDrain (r : Resolver) (s : BotSys) : BotSys :=
  match s.pending with
  | 0 => s
  | p+1 =>
    let pass := playNextInQueuePass r s.vi
    { vi := pass.next
      pending := p + (if pass.again then 1 else 0)
      streaming := s.streaming + pass.played.length }

/-- A streaming goroutine reaches EOF and exits, running its deferred
`IsPlaying = false`. -/
def sessionEnd (s : BotSys) : BotSys :=
  match s.streaming with
  | 0 => s
  | n+1 => {vi := {s.vi with IsPlaying := false}, pending := s.pending, streaming := n}

/-- `Leave` as observed at the goroutine level: it sends on `StopChan` (which
no goroutine ever receives from) and returns after clearing the guild state;
it neither joins nor kills the streaming goroutines, so `streaming` is
unchanged when `Leave` returns. -/
def leaveBot (disconnectFails : Bool) (s : BotSys) : BotSys :=
  {vi := (Leave disconnectFails s.vi).next, pending := s.pending, streaming := s.streaming}

/-- State of one streaming goroutine's frame-send loop (`audio/voice.go`
lines 313-346): frames remaining on the transcoder's stdout, whether a stop
signal is pending on `StopChan`, whether the ffmpeg process group is still
alive, and whether the goroutine has returned. -/
structure StreamState where
  framesLeft : Nat
  stopRequested : Bool
  procAlive : Bool
  exited : Bool
deriving DecidableEq

/-- One iteration of the frame-send loop.  The loop's `select` has the single
case `<-ticker.C`; `StopChan` appears in no case, so `stopRequested` is never
consulted: the loop exits only on EOF (or a read error), at which point the
deferred process-group kill runs. -/
def streamTick (st : StreamState) : StreamState :=
  if st.exited then st
  else
    match st.framesLeft with
    | 0 => {st with exited := true, procAlive := false}
    | n+1 => {st with framesLeft := n}

def streamTickN : Nat → StreamState → StreamState
  | 0, st => st
  | n+1, st => streamTickN n (streamTick st)

/-- `GetVoiceInstance`'s lazily created fresh instance (zero values). -/
def newVoiceInstance (guildID : String) : VoiceInstance :=
  { GuildID := guildID
    ChannelID := ""
    Connection := none
    IsPlaying := false
    Repeat := false
    Autoplay := false
    CurrentURL := ""
    Queue := [] }

def okResolver : Resolver :=
  { GetVideoID := fun url => some url
    DownloadAudio := fun videoID => some videoID
    GetRelatedVideo := fun _ => none
    spotifyAvailable := false }

def ytA : String := "https://youtube.com/watch?v=aaa"

def ytB : String := "https://youtube.com/watch?v=bbb"

def ytC : String := "https://youtube.com/watch?v=ccc"

def badUrl : String := "https://youtube.com/watch?v=bad"

def goodUrl : String := "https://youtube.com/watch?v=good"

def relatedUrl : String := "https://youtube.com/watch?v=related"

def connectedVI : VoiceInstance :=
  { newVoiceInstance ("g1") with Connection := some ⟨true⟩, ChannelID := "voice-42" }

def badResolver : Resolver :=
  { okResolver with GetVideoID := fun url => if url == badUrl then none else some url }

def relResolver : Resolver :=
  { okResolver with GetRelatedVideo := fun _ => some relatedUrl }

def fifoVI : VoiceInstance := { connectedVI with Queue := [ytA, ytB, ytC] }

def badQueueVI : VoiceInstance := { connectedVI with Queue := [badUrl, goodUrl] }

def repeatVI : VoiceInstance := { connectedVI with Repeat := true, Queue := [ytA, ytB] }

def autoplayVI : VoiceInstance := { connectedVI with Autoplay := true, Queue := [ytA] }

def autoplayVI2 : VoiceInstance := { connectedVI with Autoplay := true, Queue := [ytA, ytB] }

def autoSys : BotSys := ⟨{ connectedVI with Autoplay := true }, 0, 0⟩

def streamingAfterStop : StreamState := ⟨5, true, true, false⟩

def timeoutEnv : JoinEnv := ⟨true, false⟩

def okEnv : JoinEnv := ⟨true, true⟩

theorem isEmpty_append_singleton {α : Type} (l : List α) (a : α) :
    (l ++ [a]).isEmpty = false := by
  cases l <;> rfl

/-- C1: with repeat and autoplay both false, enqueueing [a, b, c] into an idle
guild and triggering the drain loop once does NOT attempt [a, b, c]: the code
attempts only the first locator, then sets `IsPlaying` to false while [b, c]
are still queued — the `continuePlay` branch for a non-empty queue stops the
loop instead of recursing, so the remaining entries wait for an external
re-trigger.  This evaluates `playNextInQueue` at that failing input. -/
theorem drain_loop_stops_with_nonempty_queue :
    (drainLoop okResolver 10 fifoVI).attempted = [ytA]
    ∧ (drainLoop okResolver 10 fifoVI).played = [ytA]
    ∧ (drainLoop okResolver 10 fifoVI).final.IsPlaying = false
    ∧ (drainLoop okResolver 10 fifoVI).final.Queue = [ytB, ytC] := by
  decide

/-- C2 counterexample: with a queue [bad-url, good-url] where resolving
bad-url fails, the drain loop does not advance to good-url in the same pass:
it attempts only bad-url, plays nothing, and exits with `IsPlaying = false`
while good-url is still queued. -/
theorem resolve_failure_does_not_advance :
    (drainLoop badResolver 10 badQueueVI).attempted = [badUrl]
    ∧ (drainLoop badResolver 10 badQueueVI).played = []
    ∧ (drainLoop badResolver 10 badQueueVI).final.IsPlaying = false
    ∧ (drainLoop badResolver 10 badQueueVI).final.Queue = [goodUrl] := by
  decide

/-- C2 amended: if resolving one queue entry fails, the drain loop reports the
failure, abandons the track, sets `IsPlaying` to false and exits WITHOUT
attempting the next queue entry; the failure is not fatal to the guild state —
the remaining queue entries and the connection are preserved — but the next
entry plays only after an external re-trigger. -/
theorem resolve_failure_stops_loop_preserving_queue (r : Resolver) (bad : String)
    (rest : List String) (vi : VoiceInstance)
    (hq : vi.Queue = bad :: rest)
    (hyt : (stringsContains bad ytCom || stringsContains bad ytBe) = true)
    (hfail : r.GetVideoID bad = none) :
    (playNextInQueuePass r vi).again = false
    ∧ (playNextInQueuePass r vi).next.IsPlaying = false
    ∧ (playNextInQueuePass r vi).next.Queue = rest
    ∧ (playNextInQueuePass r vi).next.Connection = vi.Connection
    ∧ (playNextInQueuePass r vi).played = []
    ∧ (playNextInQueuePass r vi).failed = [bad] := by
  simp [playNextInQueuePass, hq, hyt, hfail]

/-- Witness for the C2 amended theorem at the spec's own scenario
[bad-url, good-url]. -/
theorem resolve_failure_stops_loop_preserving_queue_witness :
    (playNextInQueuePass badResolver badQueueVI).next.Queue = [goodUrl]
    ∧ (playNextInQueuePass badResolver badQueueVI).played = []
    ∧ (playNextInQueuePass badResolver badQueueVI).again = false := by
  have h := resolve_failure_stops_loop_preserving_queue badResolver badUrl [goodUrl]
    badQueueVI rfl (by decide) (by decide)
  exact ⟨h.2.2.1, h.2.2.2.2.1, h.1⟩

/-- C3: mutual exclusion of playback sessions fails.  `PlayAudio` returns
right after spawning its streaming goroutine, and the drain loop's autoplay
re-entry path then runs a second `playNextInQueue` invocation immediately, so
from a connected guild with autoplay on, the interleaving
"play a; run the drain invocation; run the spawned re-entry invocation" leaves
TWO streaming sessions live for the same guild (no `sessionEnd` has occurred
between them).  This evaluates the code at that interleaving. -/
theorem autoplay_reentry_two_sessions_streaming :
    (runDrain okResolver (runDrain okResolver (cmdPlay ytA autoSys))).streaming = 2
    ∧ (runDrain okResolver (runDrain okResolver (cmdPlay ytA autoSys))).vi.IsPlaying = true := by
  decide

/-- C4: the frame-send loop never observes the stop signal.  Its `select` has
the single case `<-ticker.C`, so with a stop signal pending
(`stopRequested = true`) and frames remaining, the session is still streaming
one frame quantum later, is still streaming (with the ffmpeg process group
alive) after all 5 remaining quanta, and exits only at EOF on the 6th tick.
Moreover `Leave` returns with the streaming goroutine still live
(`streaming = 1` after `leaveBot`), so the subprocess outlives Leave. -/
theorem stream_loop_never_observes_stop_signal :
    (streamTick streamingAfterStop).exited = false
    ∧ (streamTick streamingAfterStop).stopRequested = true
    ∧ (streamTickN 5 streamingAfterStop).exited = false
    ∧ (streamTickN 5 streamingAfterStop).procAlive = true
    ∧ (streamTickN 6 streamingAfterStop).exited = true
    ∧ (streamTickN 6 streamingAfterStop).procAlive = false
    ∧ (leaveBot true (runDrain okResolver (cmdPlay ytA autoSys))).streaming = 1
    ∧ (leaveBot true (runDrain okResolver (cmdPlay ytA autoSys))).vi.Connection = none := by
  decide

/-- C5: `Leave` is a no-op returning success when no connection exists; when
connected it signals the session to stop and unconditionally clears the
connection, `IsPlaying`, the current track and the queue, returning success —
and its result is identical whether or not the transport disconnect fails. -/
theorem leave_cleanup_spec (disconnectFails : Bool) (vi : VoiceInstance) :
    (vi.Connection = none → Leave disconnectFails vi = ⟨vi, none, false⟩)
    ∧ (vi.Connection.isSome = true →
        (Leave disconnectFails vi).err = none
        ∧ (Leave disconnectFails vi).stopSignalled = true
        ∧ (Leave disconnectFails vi).next.Connection = none
        ∧ (Leave disconnectFails vi).next.IsPlaying = false
        ∧ (Leave disconnectFails vi).next.CurrentURL = ""
        ∧ (Leave disconnectFails vi).next.ChannelID = ""
        ∧ (Leave disconnectFails vi).next.Queue = [])
    ∧ Leave true vi = Leave false vi := by
  refine ⟨?_, ?_, ?_⟩
  · intro h
    simp [Leave, h]
  · intro h
    cases hc : vi.Connection with
    | none => simp [hc] at h
    | some c => simp [Leave, hc]
  · cases hc : vi.Connection <;> simp [Leave, hc]

/-- Witness for C5: a connected guild with a failing disconnect still gets the
full cleanup and a success result, and a disconnected guild is a no-op. -/
theorem leave_cleanup_spec_witness :
    (Leave true connectedVI).err = none
    ∧ (Leave true connectedVI).next.Queue = []
    ∧ (Leave true connectedVI).next.IsPlaying = false
    ∧ Leave false (newVoiceInstance ("g2")) = ⟨newVoiceInstance ("g2"), none, false⟩ := by
  have h := (leave_cleanup_spec true connectedVI).2.1 (by decide)
  exact ⟨h.1, h.2.2.2.2.2.2, h.2.2.2.1,
    (leave_cleanup_spec false (newVoiceInstance ("g2"))).1 rfl⟩

/-- C6: if the transport connection is established but does not become ready
within the 5-second bound, `Join` disconnects the half-open connection, clears
the stored connection and channel identity, and returns the timeout error —
no non-ready handle is left installed. -/
theorem join_ready_timeout_spec (env : JoinEnv) (ch : String) (vi : VoiceInstance)
    (hpre : (vi.Connection.isSome && vi.ChannelID == ch) = false)
    (hok : env.connectOk = true) (hready : env.readyInTime = false) :
    (Join env ch vi).err = some JoinError.readyTimeout
    ∧ (Join env ch vi).next.Connection = none
    ∧ (Join env ch vi).next.ChannelID = ""
    ∧ (Join env ch vi).attempts = 1 := by
  simp [Join, hpre, hok, hready]

/-- Witness for C6 at a concrete disconnected guild and a
connect-ok/never-ready transport. -/
theorem join_ready_timeout_spec_witness :
    (Join timeoutEnv ("voice-42") (newVoiceInstance ("g3"))).err = some JoinError.readyTimeout
    ∧ (Join timeoutEnv ("voice-42") (newVoiceInstance ("g3"))).next.Connection = none := by
  have h := join_ready_timeout_spec timeoutEnv ("voice-42") (newVoiceInstance ("g3"))
    (by decide) rfl rfl
  exact ⟨h.1, h.2.1⟩

/-- C7: `Join` is idempotent for the same channel — after a successful `Join`
for a channel, a second `Join` for the same channel with no intervening
`Leave` is a no-op returning success with zero connection-establishment
sequences, so the pair performs exactly one establishment. -/
theorem join_idempotent_same_channel (env1 env2 : JoinEnv) (ch : String) (vi : VoiceInstance)
    (h0 : vi.Connection = none) (hok : env1.connectOk = true) (hready : env1.readyInTime = true) :
    (Join env1 ch vi).err = none
    ∧ (Join env1 ch vi).attempts = 1
    ∧ Join env2 ch (Join env1 ch vi).next = ⟨(Join env1 ch vi).next, none, 0⟩ := by
  simp [Join, h0, hok, hready]

/-- Witness for C7 at a concrete guild and channel. -/
theorem join_idempotent_same_channel_witness :
    (Join okEnv ("voice-42") (newVoiceInstance ("g4"))).attempts = 1
    ∧ Join okEnv ("voice-42") (Join okEnv ("voice-42") (newVoiceInstance ("g4"))).next
      = ⟨(Join okEnv ("voice-42") (newVoiceInstance ("g4"))).next, none, 0⟩ := by
  have h := join_idempotent_same_channel okEnv okEnv ("voice-42")
    (newVoiceInstance ("g4")) rfl rfl rfl
  exact ⟨h.2.1, h.2.2⟩

/-- C8: with repeat true, after a track completes, the just-played locator is
appended exactly once to the tail of the queue: a pass on queue url :: rest
leaves the queue exactly rest ++ [url] — not lost, not duplicated. -/
theorem repeat_reappends_once_at_tail (r : Resolver) (url vid file : String)
    (rest : List String) (vi : VoiceInstance)
    (hq : vi.Queue = url :: rest)
    (hrep : vi.Repeat = true)
    (hyt : (stringsContains url ytCom || stringsContains url ytBe) = true)
    (h1 : r.GetVideoID url = some vid)
    (h2 : r.DownloadAudio vid = some file) :
    (playNextInQueuePass r vi).next.Queue = rest ++ [url]
    ∧ (playNextInQueuePass r vi).played = [url]
    ∧ (playNextInQueuePass r vi).next.CurrentURL = url := by
  simp [playNextInQueuePass, hq, hyt, h1, h2, hrep, isEmpty_append_singleton]

/-- Witness for C8 with repeat on and queue [a, b]: after the pass the queue
is [b, a]. -/
theorem repeat_reappends_once_at_tail_witness :
    (playNextInQueuePass okResolver repeatVI).next.Queue = [ytB, ytA]
    ∧ (playNextInQueuePass okResolver repeatVI).played = [ytA] := by
  have h := repeat_reappends_once_at_tail okResolver ytA ytA ytA [ytB] repeatVI
    rfl rfl (by decide) rfl rfl
  exact ⟨h.1, h.2.1⟩

/-- C9 counterexample: the drain loop's autoplay path never consults the
related-track resolver — with a resolver whose `GetRelatedVideo` always
succeeds with a distinct URL, the enqueued next locator is still the
just-played one; and with autoplay true and a non-empty queue after a track
finishes, the loop DOES exit with `IsPlaying = false` while autoplay remains
true, contradicting the claim's non-stall guarantee. -/
theorem autoplay_claim_counterexample :
    (playNextInQueuePass relResolver autoplayVI).next.Queue = [ytA]
    ∧ relatedUrl ∉ (playNextInQueuePass relResolver autoplayVI).next.Queue
    ∧ (drainLoop okResolver 10 autoplayVI2).final.IsPlaying = false
    ∧ (drainLoop okResolver 10 autoplayVI2).final.Autoplay = true
    ∧ (drainLoop okResolver 10 autoplayVI2).final.Queue = [ytB] := by
  decide

/-- C9 amended: with autoplay true, when a track finishes and the queue is
then empty, the drain loop re-appends the just-played locator itself (the
external resolver is not involved) and re-triggers itself with `IsPlaying`
still true; but when the queue is non-empty at track end, the loop exits with
`IsPlaying = false` even though autoplay remains true, leaving the queue to an
external re-trigger. -/
theorem autoplay_reuses_current_url (r : Resolver) (url vid file : String)
    (vi : VoiceInstance)
    (hauto : vi.Autoplay = true) (hrep : vi.Repeat = false)
    (hyt : (stringsContains url ytCom || stringsContains url ytBe) = true)
    (h1 : r.GetVideoID url = some vid)
    (h2 : r.DownloadAudio vid = some file) :
    (vi.Queue = [url] →
      (playNextInQueuePass r vi).again = true
      ∧ (playNextInQueuePass r vi).next.Queue = [url]
      ∧ (playNextInQueuePass r vi).next.IsPlaying = true)
    ∧ (∀ rest, vi.Queue = url :: rest → rest ≠ [] →
      (playNextInQueuePass r vi).again = false
      ∧ (playNextInQueuePass r vi).next.IsPlaying = false
      ∧ (playNextInQueuePass r vi).next.Queue = rest) := by
  constructor
  · intro hq
    simp [playNextInQueuePass, hq, hyt, h1, h2, hrep, hauto]
  · intro rest hq hne
    cases rest with
    | nil => cases hne rfl
    | cons a t => simp [playNextInQueuePass, hq, hyt, h1, h2, hrep]

/-- Witness for the C9 amended theorem: autoplay on, queue [a] — the pass
re-enqueues a and spawns the next invocation. -/
theorem autoplay_reuses_current_url_witness :
    (playNextInQueuePass okResolver autoplayVI).again = true
    ∧ (playNextInQueuePass okResolver autoplayVI).next.Queue = [ytA]
    ∧ (playNextInQueuePass okResolver autoplayVI).next.IsPlaying = true := by
  have h := (autoplay_reuses_current_url okResolver ytA ytA ytA autoplayVI
    rfl rfl (by decide) rfl rfl).1 rfl
  exact ⟨h.1, h.2.1, h.2.2⟩

/-- C10: `PlayAudio` returns an error exactly when the instance has no
connection; with a connection it sets `IsPlaying` true and returns success
immediately with zero frames sent, the streaming goroutine having been
spawned; that goroutine's exit handler is what resets `IsPlaying` to
false. -/
theorem playAudio_error_iff_no_connection (vi : VoiceInstance) :
    ((PlayAudio vi).err.isSome = vi.Connection.isNone)
    ∧ (vi.Connection.isNone = false →
        (PlayAudio vi).err = none
        ∧ (PlayAudio vi).next.IsPlaying = true
        ∧ (PlayAudio vi).spawned = true
        ∧ (PlayAudio vi).framesSentAtReturn = 0)
    ∧ (streamGoroutineExit (PlayAudio vi).next).IsPlaying = false := by
  cases h : vi.Connection <;> simp [PlayAudio, streamGoroutineExit, h]

/-- Witness for C10 at a connected instance. -/
theorem playAudio_error_iff_no_connection_witness :
    (PlayAudio connectedVI).err = none
    ∧ (PlayAudio connectedVI).next.IsPlaying = true
    ∧ (PlayAudio connectedVI).framesSentAtReturn = 0 := by
  have h := (playAudio_error_iff_no_connection connectedVI).2.1 (by decide)
  exact ⟨h.1, h.2.1, h.2.2.2⟩
